import Mathlib

/-
Shallow embedding of the realtime fan-out gateway in src/src/index.ts.

Modelling conventions:
- A JavaScript field that may be absent is an Option; a missing field is none.
- JavaScript truthiness of a string field (the checks of the form "if (!x)")
  holds for a present, non-empty string only: undefined and "" are falsy.
- Store interactions (supabase select / update / insert) are modelled by
  explicit outcome parameters: the fetch outcome carries the row (or none)
  and an error flag, and update / insert outcomes are error flags.
- A handler returns the list of frames it sent, as (client id, frame) pairs
  in send order, together with the list of store operations it attempted.
-/

namespace ExpressServer

/-- The readyState of a ws WebSocket. -/
inductive ReadyState where
  | CONNECTING
  | OPEN
  | CLOSING
  | CLOSED
deriving DecidableEq, Repr

/-- One entry of wss.clients: an identifier and its current readyState. -/
structure Client where
  cid : Nat
  readyState : ReadyState
deriving DecidableEq, Repr

/-- One element of a stored message reactions list: an (emoji, userId, count)
tuple. emoji and userId are Options because handleReaction writes the frame
fields reaction and senderId into them without checking presence. -/
structure ReactionEntry where
  emoji : Option String
  userId : Option String
  count : Nat
deriving DecidableEq, Repr

/-- The WebSocketMessage interface of index.ts, as it exists at runtime after
JSON.parse: every field can be absent, the TypeScript annotations are not
enforced. extra holds fields outside the declared interface, which the chat
echo path retransmits verbatim. -/
structure WebSocketMessage where
  type : Option String
  messageId : Option String
  senderId : Option String
  reaction : Option String
  text : Option String
  chat_id : Option String
  userId : Option String
  userName : Option String
  userAvatar : Option String
  createdAt : Option String
  updatedAt : Option String
  author_id : Option String
  content : Option String
  extra : List (String × String)
deriving DecidableEq, Repr

/-- An outbound frame written to a connection. -/
inductive OutFrame where
  | errorFrame (msg : String)
  | reactionUpdate (messageId : String) (reactions : List ReactionEntry)
  | typing (type : Option String) (senderId : Option String) (chat_id : Option String)
  | echo (f : WebSocketMessage)
deriving DecidableEq, Repr

/-- A store operation attempted by a handler. -/
inductive StoreOp where
  | updateReactions (messageId : String) (reactions : List ReactionEntry)
  | insertMessage (chat_id : Option String) (author_id : Option String)
      (content : Option String) (status : String)
deriving DecidableEq, Repr

/-- What a handler run produced: frames sent (client id, frame) and store
operations attempted, each in program order. -/
structure HandlerResult where
  sends : List (Nat × OutFrame)
  storeOps : List StoreOp
deriving DecidableEq, Repr

/-- The part of a stored messages row that handleReaction reads: its reactions
column, which can be null (none) or a list. -/
structure StoredMessage where
  reactions : Option (List ReactionEntry)
deriving DecidableEq, Repr

/-- Outcome of the supabase select single call in handleReaction: the data
and error fields of the response. -/
structure FetchOutcome where
  data : Option StoredMessage
  error : Bool
deriving DecidableEq, Repr

/-- JavaScript truthiness of an optional string: undefined and "" are falsy. -/
def truthy : Option String → Bool
  | none => false
  | some s => decide (s ≠ "")

/-- Lines 151-158 of index.ts: updatedReactions = messageData.reactions or [];
findIndex on emoji === reaction and userId === senderId; if found increment
that entry count by 1, else push a new entry with count 1. The first matching
entry is the one incremented; a new entry goes to the end of the list. -/
def mergeReaction : List ReactionEntry → Option String → Option String → List ReactionEntry
  | [], reaction, senderId => [ReactionEntry.mk reaction senderId 1]
  | r :: rs, reaction, senderId =>
    if r.emoji = reaction ∧ r.userId = senderId then
      ReactionEntry.mk r.emoji r.userId (r.count + 1) :: rs
    else
      r :: mergeReaction rs reaction senderId

/-- Lines 131-176 of index.ts, handleReaction. wsId is the originating
connection, clients is wss.clients at broadcast time, fetch is the outcome of
the select, updateError the outcome of the update. -/
def handleReaction (message : WebSocketMessage) (wsId : Nat) (clients : List Client)
    (fetch : FetchOutcome) (updateError : Bool) : HandlerResult :=
  if !(truthy message.messageId) then
    HandlerResult.mk [(wsId, OutFrame.errorFrame "Message ID is required for reactions")] []
  else
    match fetch.error, fetch.data with
    | true, _ =>
      HandlerResult.mk [(wsId, OutFrame.errorFrame "Failed to fetch message")] []
    | false, none =>
      HandlerResult.mk [(wsId, OutFrame.errorFrame "Failed to fetch message")] []
    | false, some messageData =>
      let updatedReactions :=
        mergeReaction (messageData.reactions.getD []) message.reaction message.senderId
      let mid := message.messageId.getD ""
      if updateError then
        HandlerResult.mk [(wsId, OutFrame.errorFrame "Failed to update reactions")]
          [StoreOp.updateReactions mid updatedReactions]
      else
        HandlerResult.mk
          ((clients.filter fun c => decide (c.readyState = ReadyState.OPEN)).map
            fun c => (c.cid, OutFrame.reactionUpdate mid updatedReactions))
          [StoreOp.updateReactions mid updatedReactions]

/-- Lines 112-129 of index.ts, handleTypingEvent: require truthy senderId and
chat_id, then send the triple to every OTHER open connection; nothing is
stored. -/
def handleTypingEvent (message : WebSocketMessage) (wsId : Nat) (clients : List Client) :
    HandlerResult :=
  if !(truthy message.senderId) || !(truthy message.chat_id) then
    HandlerResult.mk
      [(wsId, OutFrame.errorFrame "Sender ID and Chat ID are required for typing events")] []
  else
    HandlerResult.mk
      ((clients.filter fun c => decide (c.cid ≠ wsId ∧ c.readyState = ReadyState.OPEN)).map
        fun c => (c.cid, OutFrame.typing message.type message.senderId message.chat_id))
      []

/-- Lines 178-199 of index.ts, handleMessage: insert a row built from chat_id,
author_id, content with status sent; on insert error reply only to the sender;
on success broadcast the original frame to every open connection. -/
def handleMessage (message : WebSocketMessage) (wsId : Nat) (clients : List Client)
    (insertError : Bool) : HandlerResult :=
  let op := StoreOp.insertMessage message.chat_id message.author_id message.content "sent"
  if insertError then
    HandlerResult.mk [(wsId, OutFrame.errorFrame "Failed to process message")] [op]
  else
    HandlerResult.mk
      ((clients.filter fun c => decide (c.readyState = ReadyState.OPEN)).map
        fun c => (c.cid, OutFrame.echo message))
      [op]

/-- Lines 102-110 of index.ts, handleWebSocketMessage: dispatch on type. -/
def handleWebSocketMessage (message : WebSocketMessage) (wsId : Nat) (clients : List Client)
    (fetch : FetchOutcome) (updateError : Bool) (insertError : Bool) : HandlerResult :=
  if message.type = some "reaction" then
    handleReaction message wsId clients fetch updateError
  else if message.type = some "typing_started" ∨ message.type = some "typing_stopped" then
    handleTypingEvent message wsId clients
  else
    handleMessage message wsId clients insertError

/-- An inbound text frame, after the JSON.parse attempt: either unparseable
or a parsed WebSocketMessage. -/
inductive Inbound where
  | malformed
  | frame (f : WebSocketMessage)
deriving DecidableEq, Repr

/-- Lines 91-99 of index.ts, the message listener: on parse failure send the
Invalid message format error to the originating connection only, otherwise
run handleWebSocketMessage. -/
def onMessage (raw : Inbound) (wsId : Nat) (clients : List Client)
    (fetch : FetchOutcome) (updateError : Bool) (insertError : Bool) : HandlerResult :=
  match raw with
  | Inbound.malformed =>
    HandlerResult.mk [(wsId, OutFrame.errorFrame "Invalid message format")] []
  | Inbound.frame f => handleWebSocketMessage f wsId clients fetch updateError insertError

/-- One chats_users participant as the send-message endpoint reads it: the
role and id of the joined profile. -/
structure ChatUser where
  role : Option String
  id : Option String
deriving DecidableEq, Repr

/-- The chat row fetched by the send-message endpoint: its participant list. -/
structure ChatData where
  users : List ChatUser
deriving DecidableEq, Repr

/-- The HTTP response of the send-message endpoint, reduced to its kind. -/
inductive RestResponse where
  | badRequest (msg : String)
  | serverError (msg : String)
  | success
deriving DecidableEq, Repr

/-- What one run of the send-message endpoint produced. -/
structure SendMessageResult where
  response : RestResponse
  inserts : List StoreOp
deriving DecidableEq, Repr

/-- The JavaScript builtin String.prototype.trim used on line 672: drop
whitespace from both ends of the string. -/
def jsTrim (s : String) : String :=
  String.mk (((s.data.dropWhile Char.isWhitespace).reverse.dropWhile Char.isWhitespace).reverse)

/-- Lines 670-707 of index.ts, the api.post send-message endpoint. chatFetch
is none when the chat select failed (the chatError throw); insertError is the
outcome of the insert. isCoachRecipient is true when some participant has
role coach and an id different from author_id. -/
def sendMessage (chat_id : Option String) (author_id : Option String) (content : String)
    (chatFetch : Option ChatData) (insertError : Bool) : SendMessageResult :=
  let trimmedContent := jsTrim content
  if trimmedContent = "" then
    SendMessageResult.mk (RestResponse.badRequest "Message content cannot be empty") []
  else
    match chatFetch with
    | none => SendMessageResult.mk (RestResponse.serverError "Failed to fetch chat details") []
    | some chatData =>
      let isCoachRecipient := chatData.users.any fun chatUser =>
        decide (chatUser.role = some "coach" ∧ chatUser.id ≠ author_id)
      let op := StoreOp.insertMessage chat_id author_id (some trimmedContent)
        (if isCoachRecipient then "waiting_for_coach" else "sent")
      if insertError then
        SendMessageResult.mk (RestResponse.serverError "Failed to send message") [op]
      else
        SendMessageResult.mk RestResponse.success [op]

/-- The (emoji, userId) key of a reaction entry, the identity the merge
matches on. -/
def reactionKey (r : ReactionEntry) : Option String × Option String :=
  (r.emoji, r.userId)

/-- The reaction list invariant of the spec: at most one entry per distinct
(emoji, userId) pair. -/
def ReactionInvariant (rs : List ReactionEntry) : Prop :=
  (rs.map reactionKey).Nodup

instance (rs : List ReactionEntry) : Decidable (ReactionInvariant rs) :=
  inferInstanceAs (Decidable (rs.map reactionKey).Nodup)

/-! ### Lemmas about the reaction merge -/

theorem mergeReaction_of_not_mem (rs : List ReactionEntry) (e u : Option String)
    (h : ∀ r ∈ rs, ¬(r.emoji = e ∧ r.userId = u)) :
    mergeReaction rs e u = rs ++ [ReactionEntry.mk e u 1] := by
  induction rs with
  | nil => rfl
  | cons r rs ih =>
    have hr : ¬(r.emoji = e ∧ r.userId = u) := h r (List.mem_cons_self r rs)
    rw [mergeReaction, if_neg hr, ih fun x hx => h x (List.mem_cons_of_mem r hx)]
    rfl

theorem mergeReaction_keys (rs : List ReactionEntry) (e u : Option String) :
    (mergeReaction rs e u).map reactionKey =
      if (e, u) ∈ rs.map reactionKey then rs.map reactionKey
      else rs.map reactionKey ++ [(e, u)] := by
  induction rs with
  | nil => simp [mergeReaction, reactionKey]
  | cons r rs ih =>
    by_cases h : r.emoji = e ∧ r.userId = u
    · have hk : reactionKey r = (e, u) := by
        simp [reactionKey, h.1, h.2]
      rw [mergeReaction, if_pos h]
      simp [reactionKey, hk, h.1, h.2]
    · have hk : ((e, u) : Option String × Option String) ≠ reactionKey r := fun heq =>
        h ⟨(congrArg Prod.fst heq).symm, (congrArg Prod.snd heq).symm⟩
      rw [mergeReaction, if_neg h]
      simp only [List.map_cons, List.mem_cons, hk, false_or, ih]
      by_cases hm : (e, u) ∈ rs.map reactionKey
      · rw [if_pos hm, if_pos hm]
      · rw [if_neg hm, if_neg hm]
        rfl

theorem mergeReaction_invariant (rs : List ReactionEntry) (e u : Option String)
    (h : ReactionInvariant rs) : ReactionInvariant (mergeReaction rs e u) := by
  unfold ReactionInvariant at h ⊢
  rw [mergeReaction_keys]
  by_cases hm : (e, u) ∈ rs.map reactionKey
  · rwa [if_pos hm]
  · rw [if_neg hm, List.nodup_append]
    refine ⟨h, List.nodup_singleton _, ?_⟩
    intro a ha hb
    rw [List.mem_singleton] at hb
    subst hb
    exact hm ha

/-! ### Lemmas about broadcasts -/

theorem broadcast_sends_unique (clients : List Client) (g : Client → Bool) (x : OutFrame)
    (c : Client) (hc : c ∈ clients) (hnd : (clients.map Client.cid).Nodup) (hg : g c = true) :
    ((clients.filter g).map fun cl => ((cl.cid, x) : Nat × OutFrame)).filter
      (fun p => decide (p.1 = c.cid)) = [(c.cid, x)] := by
  induction clients with
  | nil => cases hc
  | cons hd tl ih =>
    rw [List.map_cons, List.nodup_cons] at hnd
    rcases List.mem_cons.mp hc with rfl | hmem
    · rw [List.filter_cons, if_pos hg, List.map_cons, List.filter_cons]
      have hself : decide (c.cid = c.cid) = true := by simp
      rw [if_pos hself]
      have hrest : ((tl.filter g).map fun cl => ((cl.cid, x) : Nat × OutFrame)).filter
          (fun p => decide (p.1 = c.cid)) = [] := by
        apply List.filter_eq_nil_iff.mpr
        intro p hp
        rcases List.mem_map.mp hp with ⟨cl, hcl, rfl⟩
        have : cl.cid ∈ tl.map Client.cid :=
          List.mem_map.mpr ⟨cl, List.mem_of_mem_filter hcl, rfl⟩
        simp only [decide_eq_true_eq]
        intro hcontra
        exact hnd.1 (hcontra ▸ this)
      rw [hrest]
    · have hne : hd.cid ≠ c.cid := by
        intro hcontra
        exact hnd.1 (hcontra ▸ List.mem_map.mpr ⟨c, hmem, rfl⟩)
      rw [List.filter_cons]
      by_cases hghd : g hd = true
      · rw [if_pos hghd, List.map_cons, List.filter_cons, if_neg (by simpa using hne)]
        exact ih hmem hnd.2
      · rw [if_neg hghd]
        exact ih hmem hnd.2

/-! ### Claim theorems -/

/-- Claim C1: the Reaction Merge preserves the at-most-one-entry-per
(emoji, userId) invariant, and applying the same (emoji, userId) reaction
twice to a message with no other reactions yields exactly one entry with
count 2, never two entries. -/
theorem mergeReaction_preserves_invariant :
    (∀ (rs : List ReactionEntry) (e u : Option String),
        ReactionInvariant rs → ReactionInvariant (mergeReaction rs e u)) ∧
    (∀ e u : Option String,
        mergeReaction (mergeReaction [] e u) e u = [ReactionEntry.mk e u 2]) := by
  refine ⟨mergeReaction_invariant, fun e u => ?_⟩
  simp [mergeReaction]

/-- Concrete instantiation of the C1 theorem. -/
theorem mergeReaction_preserves_invariant_witness :
    ReactionInvariant
      (mergeReaction [ReactionEntry.mk (some "a") (some "u1") 1] (some "b") (some "u2")) :=
  mergeReaction_preserves_invariant.1
    [ReactionEntry.mk (some "a") (some "u1") 1] (some "b") (some "u2") (by decide)

/-- Claim C3: when the (emoji, userId) pair of the incoming reaction matches
no existing entry, the merge appends a new entry with count 1 at the end and
leaves every pre-existing entry, counts included, unchanged. -/
theorem mergeReaction_appends_new_entry (rs : List ReactionEntry) (e u : Option String)
    (h : ∀ r ∈ rs, ¬(r.emoji = e ∧ r.userId = u)) :
    mergeReaction rs e u = rs ++ [ReactionEntry.mk e u 1] :=
  mergeReaction_of_not_mem rs e u h

/-- Concrete instantiation of the C3 theorem. -/
theorem mergeReaction_appends_new_entry_witness :
    mergeReaction [ReactionEntry.mk (some "a") (some "u1") 3] (some "a") (some "u2")
      = [ReactionEntry.mk (some "a") (some "u1") 3, ReactionEntry.mk (some "a") (some "u2") 1] :=
  mergeReaction_appends_new_entry [ReactionEntry.mk (some "a") (some "u1") 3]
    (some "a") (some "u2") (by decide)

/-- Claim C2: for a reaction frame whose fetch and update both succeed, every
open connection, the sender included, receives exactly one reactionUpdate
frame whose reactions list equals the list written to the store; and when the
stored message had no prior reactions (null or empty), that list is the
single entry built from the frame reaction and senderId with count 1. -/
theorem reactionUpdate_broadcast_spec (f : WebSocketMessage) (wsId : Nat)
    (clients : List Client) (md : StoredMessage) (iErr : Bool)
    (hty : f.type = some "reaction") (hmid : truthy f.messageId = true)
    (hnd : (clients.map Client.cid).Nodup) :
    ((handleWebSocketMessage f wsId clients (FetchOutcome.mk (some md) false) false iErr).storeOps
        = [StoreOp.updateReactions (f.messageId.getD "")
            (mergeReaction (md.reactions.getD []) f.reaction f.senderId)]) ∧
    (∀ c ∈ clients, c.readyState = ReadyState.OPEN →
      ((handleWebSocketMessage f wsId clients (FetchOutcome.mk (some md) false) false
            iErr).sends.filter fun p => decide (p.1 = c.cid))
        = [(c.cid, OutFrame.reactionUpdate (f.messageId.getD "")
            (mergeReaction (md.reactions.getD []) f.reaction f.senderId))]) ∧
    ((md.reactions = none ∨ md.reactions = some []) →
      mergeReaction (md.reactions.getD []) f.reaction f.senderId
        = [ReactionEntry.mk f.reaction f.senderId 1]) := by
  have hres : handleWebSocketMessage f wsId clients (FetchOutcome.mk (some md) false) false iErr
      = HandlerResult.mk
          ((clients.filter fun c => decide (c.readyState = ReadyState.OPEN)).map
            fun c => (c.cid, OutFrame.reactionUpdate (f.messageId.getD "")
              (mergeReaction (md.reactions.getD []) f.reaction f.senderId)))
          [StoreOp.updateReactions (f.messageId.getD "")
            (mergeReaction (md.reactions.getD []) f.reaction f.senderId)] := by
    rw [handleWebSocketMessage, if_pos hty, handleReaction, hmid]
    rfl
  refine ⟨by rw [hres], fun c hc hopen => ?_, fun hprior => ?_⟩
  · rw [hres]
    exact broadcast_sends_unique clients _ _ c hc hnd (by simp [hopen])
  · rcases hprior with h | h <;> simp [h, mergeReaction]

/-- Concrete instantiation of the C2 theorem: two open connections, sender
id 0, a message with no prior reactions. -/
theorem reactionUpdate_broadcast_spec_witness :
    ((handleWebSocketMessage
        (WebSocketMessage.mk (some "reaction") (some "m1") (some "u1") (some "x")
          none none none none none none none none none [])
        0 [Client.mk 0 ReadyState.OPEN, Client.mk 1 ReadyState.OPEN]
        (FetchOutcome.mk (some (StoredMessage.mk none)) false) false false).sends.filter
      fun p => decide (p.1 = 1))
      = [(1, OutFrame.reactionUpdate "m1" [ReactionEntry.mk (some "x") (some "u1") 1])] := by
  have h := reactionUpdate_broadcast_spec
    (WebSocketMessage.mk (some "reaction") (some "m1") (some "u1") (some "x")
      none none none none none none none none none [])
    0 [Client.mk 0 ReadyState.OPEN, Client.mk 1 ReadyState.OPEN]
    (StoredMessage.mk none) false rfl (by decide) (by decide)
  have h2 := h.2.1 (Client.mk 1 ReadyState.OPEN) (by decide) rfl
  simpa using h2

/-- Claim C4: on the reaction path a broadcast happens exactly when messageId
is present (truthy), the fetch succeeds and finds the message, and the update
succeeds; in every failing case the handler sends exactly one error frame, to
the originating connection only, and no reactionUpdate broadcast occurs. -/
theorem reaction_broadcast_iff_success (f : WebSocketMessage) (wsId : Nat)
    (clients : List Client) (fetch : FetchOutcome) (uErr iErr : Bool)
    (hty : f.type = some "reaction") :
    ((truthy f.messageId = true ∧ fetch.error = false ∧ fetch.data ≠ none ∧ uErr = false) →
      (handleWebSocketMessage f wsId clients fetch uErr iErr).sends
        = (clients.filter fun c => decide (c.readyState = ReadyState.OPEN)).map
            fun c => (c.cid, OutFrame.reactionUpdate (f.messageId.getD "")
              (mergeReaction ((fetch.data.getD (StoredMessage.mk none)).reactions.getD [])
                f.reaction f.senderId))) ∧
    (¬(truthy f.messageId = true ∧ fetch.error = false ∧ fetch.data ≠ none ∧ uErr = false) →
      ∃ msg, (handleWebSocketMessage f wsId clients fetch uErr iErr).sends
        = [(wsId, OutFrame.errorFrame msg)]) := by
  constructor
  · rintro ⟨hmid, herr, hdata, huerr⟩
    obtain ⟨md, hdm⟩ := Option.ne_none_iff_exists.mp hdata
    rw [handleWebSocketMessage, if_pos hty, handleReaction, hmid, herr, ← hdm, huerr]
    rfl
  · intro hfail
    rw [handleWebSocketMessage, if_pos hty, handleReaction]
    by_cases hmid : truthy f.messageId = true
    · rw [hmid]
      by_cases herr : fetch.error = true
      · rw [herr]
        exact ⟨"Failed to fetch message", rfl⟩
      · have herr2 : fetch.error = false := by
          revert herr; cases fetch.error <;> simp
        rw [herr2]
        cases hdm : fetch.data with
        | none => exact ⟨"Failed to fetch message", rfl⟩
        | some md =>
          by_cases huerr : uErr = true
          · rw [huerr]
            exact ⟨"Failed to update reactions", rfl⟩
          · have huerr2 : uErr = false := by
              revert huerr; cases uErr <;> simp
            exact absurd ⟨hmid, herr2, by rw [hdm]; exact Option.some_ne_none md, huerr2⟩ hfail
    · have hm : truthy f.messageId = false := by
        revert hmid; cases truthy f.messageId <;> simp
      rw [hm]
      exact ⟨"Message ID is required for reactions", rfl⟩

/-- Concrete instantiation of the C4 theorem: the failing branch at a frame
with no messageId. -/
theorem reaction_broadcast_iff_success_witness :
    ∃ msg, (handleWebSocketMessage
        (WebSocketMessage.mk (some "reaction") none none none
          none none none none none none none none none [])
        7 [Client.mk 7 ReadyState.OPEN] (FetchOutcome.mk none false) false false).sends
      = [(7, OutFrame.errorFrame msg)] :=
  (reaction_broadcast_iff_success
    (WebSocketMessage.mk (some "reaction") none none none
      none none none none none none none none none [])
    7 [Client.mk 7 ReadyState.OPEN] (FetchOutcome.mk none false) false false rfl).2
    (by decide)

/-- Claim C5: for typing_started and typing_stopped frames, a missing (falsy)
senderId or chat_id yields exactly one error frame to the sender and nothing
else; otherwise the (type, senderId, chat_id) triple goes to every other open
connection, is never sent back to the sending connection, and nothing is
persisted in either case. -/
theorem typing_relay_spec (f : WebSocketMessage) (wsId : Nat) (clients : List Client)
    (fetch : FetchOutcome) (uErr iErr : Bool)
    (hty : f.type = some "typing_started" ∨ f.type = some "typing_stopped") :
    (¬(truthy f.senderId = true ∧ truthy f.chat_id = true) →
      handleWebSocketMessage f wsId clients fetch uErr iErr
        = HandlerResult.mk
            [(wsId, OutFrame.errorFrame "Sender ID and Chat ID are required for typing events")]
            []) ∧
    ((truthy f.senderId = true ∧ truthy f.chat_id = true) →
      (handleWebSocketMessage f wsId clients fetch uErr iErr).storeOps = [] ∧
      (handleWebSocketMessage f wsId clients fetch uErr iErr).sends
        = (clients.filter fun c => decide (c.cid ≠ wsId ∧ c.readyState = ReadyState.OPEN)).map
            (fun c => (c.cid, OutFrame.typing f.type f.senderId f.chat_id)) ∧
      (∀ p ∈ (handleWebSocketMessage f wsId clients fetch uErr iErr).sends, p.1 ≠ wsId) ∧
      (∀ c ∈ clients, c.cid ≠ wsId → c.readyState = ReadyState.OPEN →
        (c.cid, OutFrame.typing f.type f.senderId f.chat_id)
          ∈ (handleWebSocketMessage f wsId clients fetch uErr iErr).sends)) := by
  have hnr : ¬(f.type = some "reaction") := by
    rcases hty with h | h <;> rw [h] <;> simp
  have hdisp : handleWebSocketMessage f wsId clients fetch uErr iErr
      = handleTypingEvent f wsId clients := by
    rw [handleWebSocketMessage, if_neg hnr, if_pos hty]
  constructor
  · intro hmiss
    have hcond : (!(truthy f.senderId) || !(truthy f.chat_id)) = true := by
      cases ha : truthy f.senderId <;> cases hb : truthy f.chat_id <;> simp_all
    rw [hdisp, handleTypingEvent, if_pos hcond]
  · rintro ⟨ha, hb⟩
    have hcond : ¬((!(truthy f.senderId) || !(truthy f.chat_id)) = true) := by
      rw [ha, hb]; simp
    have hres : handleWebSocketMessage f wsId clients fetch uErr iErr
        = HandlerResult.mk
            ((clients.filter fun c => decide (c.cid ≠ wsId ∧ c.readyState = ReadyState.OPEN)).map
              fun c => (c.cid, OutFrame.typing f.type f.senderId f.chat_id))
            [] := by
      rw [hdisp, handleTypingEvent, if_neg hcond]
    refine ⟨by rw [hres], by rw [hres], fun p hp => ?_, fun c hc hne hopen => ?_⟩
    · rw [hres] at hp
      rcases List.mem_map.mp hp with ⟨c, hcf, rfl⟩
      exact (of_decide_eq_true (List.mem_filter.mp hcf).2).1
    · rw [hres]
      exact List.mem_map.mpr
        ⟨c, List.mem_filter.mpr ⟨hc, decide_eq_true ⟨hne, hopen⟩⟩, rfl⟩

/-- Concrete instantiation of the C5 theorem: connection 0 sends a typing
event; connection 1 receives it and connection 0 does not. -/
theorem typing_relay_spec_witness :
    (handleWebSocketMessage
        (WebSocketMessage.mk (some "typing_started") none (some "u1") none none (some "c1")
          none none none none none none none [])
        0 [Client.mk 0 ReadyState.OPEN, Client.mk 1 ReadyState.OPEN]
        (FetchOutcome.mk none false) false false).sends
      = [(1, OutFrame.typing (some "typing_started") (some "u1") (some "c1"))] := by
  have h := (typing_relay_spec
    (WebSocketMessage.mk (some "typing_started") none (some "u1") none none (some "c1")
      none none none none none none none [])
    0 [Client.mk 0 ReadyState.OPEN, Client.mk 1 ReadyState.OPEN]
    (FetchOutcome.mk none false) false false (Or.inl rfl)).2 ⟨by decide, by decide⟩
  rw [h.2.1]
  rfl

/-- Claim C6: for every frame on the default chat path, a row built from the
frame chat_id, author_id, content with status sent is the store operation;
on insert success the frame itself, with all its fields, is echoed to every
open connection, the sender among them; on insert failure only the sender
receives an error frame and no broadcast occurs. -/
theorem chat_persist_echo_spec (f : WebSocketMessage) (wsId : Nat) (clients : List Client)
    (fetch : FetchOutcome) (uErr iErr : Bool)
    (hty : f.type ≠ some "reaction" ∧ f.type ≠ some "typing_started" ∧
      f.type ≠ some "typing_stopped") :
    ((handleWebSocketMessage f wsId clients fetch uErr iErr).storeOps
        = [StoreOp.insertMessage f.chat_id f.author_id f.content "sent"]) ∧
    (iErr = false →
      (handleWebSocketMessage f wsId clients fetch uErr iErr).sends
        = (clients.filter fun c => decide (c.readyState = ReadyState.OPEN)).map
            (fun c => (c.cid, OutFrame.echo f)) ∧
      (∀ c ∈ clients, c.readyState = ReadyState.OPEN →
        (c.cid, OutFrame.echo f)
          ∈ (handleWebSocketMessage f wsId clients fetch uErr iErr).sends)) ∧
    (iErr = true →
      (handleWebSocketMessage f wsId clients fetch uErr iErr).sends
        = [(wsId, OutFrame.errorFrame "Failed to process message")]) := by
  have hdisp : handleWebSocketMessage f wsId clients fetch uErr iErr
      = handleMessage f wsId clients iErr := by
    rw [handleWebSocketMessage, if_neg hty.1, if_neg (not_or.mpr ⟨hty.2.1, hty.2.2⟩)]
  refine ⟨?_, fun hok => ?_, fun hfail => ?_⟩
  · rw [hdisp, handleMessage]
    cases iErr <;> rfl
  · subst hok
    have hres : handleWebSocketMessage f wsId clients fetch uErr false
        = HandlerResult.mk
            ((clients.filter fun c => decide (c.readyState = ReadyState.OPEN)).map
              fun c => (c.cid, OutFrame.echo f))
            [StoreOp.insertMessage f.chat_id f.author_id f.content "sent"] := by
      rw [hdisp, handleMessage]
      rfl
    refine ⟨by rw [hres], fun c hc hopen => ?_⟩
    rw [hres]
    exact List.mem_map.mpr ⟨c, List.mem_filter.mpr ⟨hc, decide_eq_true hopen⟩, rfl⟩
  · subst hfail
    rw [hdisp, handleMessage]
    rfl

/-- Concrete instantiation of the C6 theorem: a chat frame from connection 0
with an extra field is echoed verbatim to both open connections. -/
theorem chat_persist_echo_spec_witness :
    (handleWebSocketMessage
        (WebSocketMessage.mk none none none none none (some "c1")
          none none none none none (some "a1") (some "hello") [("customField", "v")])
        0 [Client.mk 0 ReadyState.OPEN, Client.mk 1 ReadyState.OPEN]
        (FetchOutcome.mk none false) false false).sends
      = [(0, OutFrame.echo
            (WebSocketMessage.mk none none none none none (some "c1")
              none none none none none (some "a1") (some "hello") [("customField", "v")])),
         (1, OutFrame.echo
            (WebSocketMessage.mk none none none none none (some "c1")
              none none none none none (some "a1") (some "hello") [("customField", "v")]))] := by
  have h := (chat_persist_echo_spec
    (WebSocketMessage.mk none none none none none (some "c1")
      none none none none none (some "a1") (some "hello") [("customField", "v")])
    0 [Client.mk 0 ReadyState.OPEN, Client.mk 1 ReadyState.OPEN]
    (FetchOutcome.mk none false) false false (by refine ⟨?_, ?_, ?_⟩ <;> decide)).2.1 rfl
  rw [h.1]
  rfl

/-- Claim C7: an unparseable inbound text yields exactly one error frame,
Invalid message format, sent to the originating connection only, and no
store operation. -/
theorem malformed_frame_isolation (wsId : Nat) (clients : List Client)
    (fetch : FetchOutcome) (uErr iErr : Bool) :
    (onMessage Inbound.malformed wsId clients fetch uErr iErr).sends
        = [(wsId, OutFrame.errorFrame "Invalid message format")] ∧
    (onMessage Inbound.malformed wsId clients fetch uErr iErr).storeOps = [] :=
  ⟨rfl, rfl⟩

theorem mem_open_broadcast (clients : List Client) (g : Client → Bool) (x : OutFrame)
    (hg : ∀ c, g c = true → c.readyState = ReadyState.OPEN)
    (p : Nat × OutFrame)
    (hp : p ∈ (clients.filter g).map fun c => ((c.cid, x) : Nat × OutFrame)) :
    ∃ c ∈ clients, c.cid = p.1 ∧ c.readyState = ReadyState.OPEN := by
  rcases List.mem_map.mp hp with ⟨c, hcf, rfl⟩
  have hcm := List.mem_filter.mp hcf
  exact ⟨c, hcm.1, rfl, hg c hcm.2⟩

theorem filter_middle_not (cl1 cl2 : List Client) (c : Client) (g : Client → Bool)
    (hgc : g c = false) : (cl1 ++ c :: cl2).filter g = (cl1 ++ cl2).filter g := by
  simp [List.filter_append, List.filter_cons, hgc]

theorem handleReaction_sends_target (f : WebSocketMessage) (wsId : Nat) (clients : List Client)
    (fetch : FetchOutcome) (uErr : Bool) :
    ∀ p ∈ (handleReaction f wsId clients fetch uErr).sends,
      p.1 = wsId ∨ ∃ c ∈ clients, c.cid = p.1 ∧ c.readyState = ReadyState.OPEN := by
  intro p hp
  rw [handleReaction] at hp
  split at hp
  · exact Or.inl (congrArg Prod.fst (List.mem_singleton.mp hp))
  · split at hp
    · exact Or.inl (congrArg Prod.fst (List.mem_singleton.mp hp))
    · exact Or.inl (congrArg Prod.fst (List.mem_singleton.mp hp))
    · split at hp
      · exact Or.inl (congrArg Prod.fst (List.mem_singleton.mp hp))
      · exact Or.inr (mem_open_broadcast clients _ _ (fun c h => of_decide_eq_true h) p hp)

theorem handleTypingEvent_sends_target (f : WebSocketMessage) (wsId : Nat)
    (clients : List Client) :
    ∀ p ∈ (handleTypingEvent f wsId clients).sends,
      p.1 = wsId ∨ ∃ c ∈ clients, c.cid = p.1 ∧ c.readyState = ReadyState.OPEN := by
  intro p hp
  rw [handleTypingEvent] at hp
  split at hp
  · exact Or.inl (congrArg Prod.fst (List.mem_singleton.mp hp))
  · exact Or.inr (mem_open_broadcast clients _ _ (fun c h => (of_decide_eq_true h).2) p hp)

theorem handleMessage_sends_target (f : WebSocketMessage) (wsId : Nat) (clients : List Client)
    (iErr : Bool) :
    ∀ p ∈ (handleMessage f wsId clients iErr).sends,
      p.1 = wsId ∨ ∃ c ∈ clients, c.cid = p.1 ∧ c.readyState = ReadyState.OPEN := by
  intro p hp
  simp only [handleMessage] at hp
  split at hp
  · exact Or.inl (congrArg Prod.fst (List.mem_singleton.mp hp))
  · exact Or.inr (mem_open_broadcast clients _ _ (fun c h => of_decide_eq_true h) p hp)

/-- Claim C8: on every path, a frame is sent either directly to the
originating connection or, during a broadcast, to a connection whose state
is OPEN; and a non-open connection in the registry is a no-op: removing it
leaves the whole handler outcome, including delivery to every remaining
recipient, unchanged. -/
theorem broadcast_open_guard :
    (∀ (raw : Inbound) (wsId : Nat) (clients : List Client) (fetch : FetchOutcome)
        (uErr iErr : Bool),
      ∀ p ∈ (onMessage raw wsId clients fetch uErr iErr).sends,
        p.1 = wsId ∨ ∃ c ∈ clients, c.cid = p.1 ∧ c.readyState = ReadyState.OPEN) ∧
    (∀ (raw : Inbound) (wsId : Nat) (cl1 cl2 : List Client) (c : Client)
        (fetch : FetchOutcome) (uErr iErr : Bool), c.readyState ≠ ReadyState.OPEN →
      onMessage raw wsId (cl1 ++ c :: cl2) fetch uErr iErr
        = onMessage raw wsId (cl1 ++ cl2) fetch uErr iErr) := by
  constructor
  · intro raw wsId clients fetch uErr iErr p hp
    rcases raw with _ | f
    · exact Or.inl (congrArg Prod.fst (List.mem_singleton.mp hp))
    · simp only [onMessage, handleWebSocketMessage] at hp
      split at hp
      · exact handleReaction_sends_target f wsId clients fetch uErr p hp
      · split at hp
        · exact handleTypingEvent_sends_target f wsId clients p hp
        · exact handleMessage_sends_target f wsId clients iErr p hp
  · intro raw wsId cl1 cl2 c fetch uErr iErr hopen
    have hg1 : (fun cl : Client => decide (cl.readyState = ReadyState.OPEN)) c = false := by
      simp [hopen]
    have hg2 : (fun cl : Client => decide (cl.cid ≠ wsId ∧ cl.readyState = ReadyState.OPEN)) c
        = false := by
      simp [hopen]
    rcases raw with _ | f
    · rfl
    · simp only [onMessage, handleWebSocketMessage, handleReaction, handleTypingEvent,
        handleMessage]
      rw [filter_middle_not cl1 cl2 c _ hg1, filter_middle_not cl1 cl2 c _ hg2]

/-- Concrete instantiation of the C8 theorem: a typing broadcast with an open
and a closed connection present; the received frame targets the open one, and
removing the closed connection changes nothing. -/
theorem broadcast_open_guard_witness :
    ((1 : Nat) = 0 ∨ ∃ c ∈ [Client.mk 0 ReadyState.OPEN, Client.mk 1 ReadyState.OPEN],
        c.cid = 1 ∧ c.readyState = ReadyState.OPEN) ∧
    (onMessage
        (Inbound.frame (WebSocketMessage.mk (some "typing_started") none (some "u") none
          none (some "c") none none none none none none none []))
        0 ([Client.mk 0 ReadyState.OPEN] ++ Client.mk 2 ReadyState.CLOSED ::
            [Client.mk 1 ReadyState.OPEN])
        (FetchOutcome.mk none false) false false
      = onMessage
        (Inbound.frame (WebSocketMessage.mk (some "typing_started") none (some "u") none
          none (some "c") none none none none none none none []))
        0 ([Client.mk 0 ReadyState.OPEN] ++ [Client.mk 1 ReadyState.OPEN])
        (FetchOutcome.mk none false) false false) :=
  ⟨broadcast_open_guard.1
      (Inbound.frame (WebSocketMessage.mk (some "typing_started") none (some "u") none
        none (some "c") none none none none none none none []))
      0 [Client.mk 0 ReadyState.OPEN, Client.mk 1 ReadyState.OPEN]
      (FetchOutcome.mk none false) false false
      (1, OutFrame.typing (some "typing_started") (some "u") (some "c")) (by decide),
   broadcast_open_guard.2
      (Inbound.frame (WebSocketMessage.mk (some "typing_started") none (some "u") none
        none (some "c") none none none none none none none []))
      0 [Client.mk 0 ReadyState.OPEN] [Client.mk 1 ReadyState.OPEN]
      (Client.mk 2 ReadyState.CLOSED)
      (FetchOutcome.mk none false) false false (by decide)⟩

/-- Claim C9: when the chat fetch and the insert succeed, the send-message
endpoint inserts the row with status waiting_for_coach exactly when some
participant of the chat has role coach and an id different from the author,
and with status sent otherwise. -/
theorem send_message_status_rule (chat_id author_id : Option String) (content : String)
    (chat : ChatData) (hc : jsTrim content ≠ "") :
    (sendMessage chat_id author_id content (some chat) false).response
        = RestResponse.success ∧
    (sendMessage chat_id author_id content (some chat) false).inserts
      = [StoreOp.insertMessage chat_id author_id (some (jsTrim content))
          (if ∃ u ∈ chat.users, u.role = some "coach" ∧ u.id ≠ author_id
           then "waiting_for_coach" else "sent")] := by
  have hany : ((chat.users.any fun chatUser =>
      decide (chatUser.role = some "coach" ∧ chatUser.id ≠ author_id)) = true)
      ↔ ∃ u ∈ chat.users, u.role = some "coach" ∧ u.id ≠ author_id := by
    rw [List.any_eq_true]
    simp only [decide_eq_true_eq]
  have hred : sendMessage chat_id author_id content (some chat) false
      = SendMessageResult.mk RestResponse.success
          [StoreOp.insertMessage chat_id author_id (some (jsTrim content))
            (if chat.users.any fun chatUser =>
                decide (chatUser.role = some "coach" ∧ chatUser.id ≠ author_id)
             then "waiting_for_coach" else "sent")] := by
    simp only [sendMessage]
    rw [if_neg hc]
    rfl
  refine ⟨by rw [hred], ?_⟩
  rw [hred]
  by_cases hcoach : ∃ u ∈ chat.users, u.role = some "coach" ∧ u.id ≠ author_id
  · rw [if_pos (hany.mpr hcoach), if_pos hcoach]
  · rw [if_neg (fun h => hcoach (hany.mp h)), if_neg hcoach]

/-- Concrete instantiation of the C9 theorem: the other participant is a
coach, so the inserted status is waiting_for_coach. -/
theorem send_message_status_rule_witness :
    (sendMessage (some "chat1") (some "a1") " hi "
        (some (ChatData.mk [ChatUser.mk (some "coach") (some "k1")])) false).inserts
      = [StoreOp.insertMessage (some "chat1") (some "a1") (some (jsTrim " hi "))
          (if ∃ u ∈ (ChatData.mk [ChatUser.mk (some "coach") (some "k1")]).users,
              u.role = some "coach" ∧ u.id ≠ some "a1"
           then "waiting_for_coach" else "sent")] :=
  (send_message_status_rule (some "chat1") (some "a1") " hi "
    (ChatData.mk [ChatUser.mk (some "coach") (some "k1")]) (by decide)).2

/-- Claim C10: a reaction frame with a present messageId is never rejected
for a missing reaction or senderId: the merge runs with the absent values,
the resulting list is written to the store and broadcast, and when no
existing entry has both fields absent a new entry with absent emoji and
userId and count 1 is appended. -/
theorem reaction_absent_fields_merge (f : WebSocketMessage) (wsId : Nat)
    (clients : List Client) (md : StoredMessage) (iErr : Bool)
    (hty : f.type = some "reaction") (hmid : truthy f.messageId = true)
    (hr : f.reaction = none) (hs : f.senderId = none) :
    ((handleWebSocketMessage f wsId clients (FetchOutcome.mk (some md) false) false iErr).storeOps
        = [StoreOp.updateReactions (f.messageId.getD "")
            (mergeReaction (md.reactions.getD []) none none)]) ∧
    ((handleWebSocketMessage f wsId clients (FetchOutcome.mk (some md) false) false iErr).sends
        = (clients.filter fun c => decide (c.readyState = ReadyState.OPEN)).map
            fun c => (c.cid, OutFrame.reactionUpdate (f.messageId.getD "")
              (mergeReaction (md.reactions.getD []) none none))) ∧
    ((∀ r ∈ md.reactions.getD [], ¬(r.emoji = none ∧ r.userId = none)) →
      mergeReaction (md.reactions.getD []) none none
        = md.reactions.getD [] ++ [ReactionEntry.mk none none 1]) := by
  have hres : handleWebSocketMessage f wsId clients (FetchOutcome.mk (some md) false) false iErr
      = HandlerResult.mk
          ((clients.filter fun c => decide (c.readyState = ReadyState.OPEN)).map
            fun c => (c.cid, OutFrame.reactionUpdate (f.messageId.getD "")
              (mergeReaction (md.reactions.getD []) none none)))
          [StoreOp.updateReactions (f.messageId.getD "")
            (mergeReaction (md.reactions.getD []) none none)] := by
    rw [handleWebSocketMessage, if_pos hty, handleReaction, hmid, hr, hs]
    rfl
  exact ⟨by rw [hres], by rw [hres], fun h => mergeReaction_of_not_mem _ none none h⟩

/-- Concrete instantiation of the C10 theorem: a reaction frame carrying only
type and messageId, against a message with one existing reaction. -/
theorem reaction_absent_fields_merge_witness :
    mergeReaction
        ((StoredMessage.mk (some [ReactionEntry.mk (some "a") (some "u1") 2])).reactions.getD [])
        none none
      = (StoredMessage.mk (some [ReactionEntry.mk (some "a") (some "u1") 2])).reactions.getD []
        ++ [ReactionEntry.mk none none 1] :=
  (reaction_absent_fields_merge
    (WebSocketMessage.mk (some "reaction") (some "m1") none none
      none none none none none none none none none [])
    0 [Client.mk 0 ReadyState.OPEN]
    (StoredMessage.mk (some [ReactionEntry.mk (some "a") (some "u1") 2])) false
    rfl (by decide) rfl rfl).2.2 (by decide)

end ExpressServer
